import Mathlib

/-!
Shallow embedding of the browser-driven integration-test infrastructure of
this repository (`openstack_dashboard/test/integration_tests`): the
artifact-attachment hooks and their two decorators/`contextmanager`s
(`ignore_skip`, `log_exception`, `once_only` in `helpers.py`), the fixture
lifecycle (`BaseTestCase.setUp`, `BaseTestCase.tearDown`,
`TestCase.tearDown`), the page objects (`UsersPage`, `VolumesPage`,
`ApiaccessPage`) and the polling helper they call.

Modelling conventions, used uniformly below:
  * Side effects (file writes, browser-driver calls, clicks) are recorded
    as values of explicit effect inductives, and a stateful Python function
    becomes a Lean function returning the list of effects it performs
    together with the exception it raises, if any (`List E × Option PyExc`).
  * A raised Python exception is a `PyExc`; the field
    `isExceptionSubclass` records whether its class derives from
    `Exception` (so whether a bare `except Exception:` catches it).
  * Python object construction is modelled with an explicit allocation
    counter: a constructor call consumes the counter as the fresh object
    identity and returns the incremented counter, which is how CPython's
    "every constructor call yields a new object" is made visible to proofs.
  * Machine-level details of the real browser (the DOM, the driver wire
    protocol) stay abstract: a condition polled against the DOM is a
    function of the poll tick, and a rendered table is a list of rows of
    named cells.
-/

/-- A Python exception object: its class name and whether the class derives
from `Exception` (a bare `except Exception:` catches exactly those). -/
structure PyExc where
  name : String
  isExceptionSubclass : Bool
  deriving DecidableEq, Repr

/-- The `exc_info` triple passed to a `testtools` on-exception hook, reduced
to the only component the code consults: `exc_info[0].__name__`. -/
structure ExcInfo where
  typeName : String
  deriving DecidableEq, Repr

/-- Model of `traceback.format_exc()` at the point an exception `e` is being
handled: some textual rendering determined by the exception. -/
def format_exc (e : PyExc) : String :=
  "Traceback (most recent call last): " ++ e.name

/-- Observable side effects of the artifact-attachment hooks of
`BaseTestCase` in `helpers.py`. -/
inductive Effect where
  | writeFile (path content : String)
  | getScreenshot (path : String)
  | stopCapture
  | copyFile (src dst : String)
  | addDetail (label text : String)
  deriving DecidableEq, Repr

/-- The environment a single attachment hook runs in: the report directory
and the outcome of each fallible underlying operation (driver calls, the
file copy), plus the data the non-fallible operations read. -/
structure HookState where
  reportDir : String
  /-- result of `self._get_page_html_source()` -/
  pageHtml : Except PyExc String
  /-- exception of `self.driver.get_screenshot_as_file`, if it raises -/
  screenshotExc : Option PyExc
  /-- `self.screencapture.file_path` -/
  videoFilePath : String
  /-- exception of `copyfile`, if it raises -/
  copyExc : Option PyExc
  /-- result of `self._unwrap_browser_log(self.driver.get_log('browser'))` -/
  browserLog : Except PyExc String
  /-- `self._log_buffer.getvalue()` -/
  logBuffer : String

/-- `helpers.ignore_skip`: the decorator returns a wrapper that, given
`exc_info`, returns immediately (no effects, no exception) when
`exc_info[0].__name__ == 'SkipTest'`, and otherwise runs the wrapped
function. -/
def ignore_skip (func : ExcInfo → List Effect × Option PyExc) :
    ExcInfo → List Effect × Option PyExc :=
  fun exc_info =>
    if exc_info.typeName == "SkipTest" then ([], none) else func exc_info

/-- `BaseTestCase.log_exception`: run the body; when it raises an
`Exception` instance, swallow it and record `traceback.format_exc()` as an
attached detail under `label`; any other raised object propagates. -/
def log_exception (label : String) (body : List Effect × Option PyExc) :
    List Effect × Option PyExc :=
  match body.2 with
  | none => body
  | some e =>
    if e.isExceptionSubclass then
      (body.1 ++ [Effect.addDetail label (format_exc e)], none)
    else body

/-- Body of `BaseTestCase._attach_page_source` inside its `log_exception`
block: write the page HTML source to `page.html` in the report directory
(the HTML getter may raise). -/
def attach_page_source_body (s : HookState) : List Effect × Option PyExc :=
  match s.pageHtml with
  | Except.error e => ([], some e)
  | Except.ok html =>
      ([Effect.writeFile (s.reportDir ++ "/page.html") html], none)

/-- Body of `BaseTestCase._attach_screenshot` inside its `log_exception`
block: ask the driver to store a screenshot at `screenshot.png`. -/
def attach_screenshot_body (s : HookState) : List Effect × Option PyExc :=
  match s.screenshotExc with
  | some e => ([], some e)
  | none => ([Effect.getScreenshot (s.reportDir ++ "/screenshot.png")], none)

/-- Body of `BaseTestCase._attach_video` inside its `log_exception` block:
stop the screen capture, then copy its file to `video.mp4` (the copy may
raise; the capture has already been stopped by then). -/
def attach_video_body (s : HookState) : List Effect × Option PyExc :=
  match s.copyExc with
  | some e => ([Effect.stopCapture], some e)
  | none =>
      ([Effect.stopCapture,
        Effect.copyFile s.videoFilePath (s.reportDir ++ "/video.mp4")], none)

/-- Body of `BaseTestCase._attach_browser_log` inside its `log_exception`
block: write the unwrapped browser log to `browser.log`. -/
def attach_browser_log_body (s : HookState) : List Effect × Option PyExc :=
  match s.browserLog with
  | Except.error e => ([], some e)
  | Except.ok log =>
      ([Effect.writeFile (s.reportDir ++ "/browser.log") log], none)

/-- Body of `BaseTestCase._attach_test_log` inside its `log_exception`
block: write the captured log buffer to `test.log`. -/
def attach_test_log_body (s : HookState) : List Effect × Option PyExc :=
  ([Effect.writeFile (s.reportDir ++ "/test.log") s.logBuffer], none)

/-- `BaseTestCase._attach_page_source`: `ignore_skip` around
`log_exception("Attach page source")` around the body. -/
def attach_page_source (s : HookState) : ExcInfo → List Effect × Option PyExc :=
  ignore_skip (fun _ =>
    log_exception "Attach page source" (attach_page_source_body s))

/-- `BaseTestCase._attach_screenshot`. -/
def attach_screenshot (s : HookState) : ExcInfo → List Effect × Option PyExc :=
  ignore_skip (fun _ =>
    log_exception "Attach screenshot" (attach_screenshot_body s))

/-- `BaseTestCase._attach_video`. -/
def attach_video (s : HookState) : ExcInfo → List Effect × Option PyExc :=
  ignore_skip (fun _ =>
    log_exception "Attach video" (attach_video_body s))

/-- `BaseTestCase._attach_browser_log`. -/
def attach_browser_log (s : HookState) : ExcInfo → List Effect × Option PyExc :=
  ignore_skip (fun _ =>
    log_exception "Attach browser log" (attach_browser_log_body s))

/-- `BaseTestCase._attach_test_log`. -/
def attach_test_log (s : HookState) : ExcInfo → List Effect × Option PyExc :=
  ignore_skip (fun _ =>
    log_exception "Attach test log" (attach_test_log_body s))

/-- C1: every artifact-attachment hook is wrapped in `ignore_skip`: when the
recorded exception type is named `SkipTest` the hook returns immediately,
attaching nothing and raising nothing; for any other exception type name the
wrapped attachment body (under its `log_exception` block) runs and the hook's
outcome is exactly that body's outcome. -/
theorem C1_ignore_skip_gates_hooks (s : HookState) (exc : ExcInfo) :
    (exc.typeName = "SkipTest" →
      attach_page_source s exc = ([], none) ∧
      attach_screenshot s exc = ([], none) ∧
      attach_video s exc = ([], none) ∧
      attach_browser_log s exc = ([], none) ∧
      attach_test_log s exc = ([], none)) ∧
    (exc.typeName ≠ "SkipTest" →
      attach_page_source s exc
          = log_exception "Attach page source" (attach_page_source_body s) ∧
      attach_screenshot s exc
          = log_exception "Attach screenshot" (attach_screenshot_body s) ∧
      attach_video s exc
          = log_exception "Attach video" (attach_video_body s) ∧
      attach_browser_log s exc
          = log_exception "Attach browser log" (attach_browser_log_body s) ∧
      attach_test_log s exc
          = log_exception "Attach test log" (attach_test_log_body s)) := by
  constructor
  · intro h
    simp [attach_page_source, attach_screenshot, attach_video,
      attach_browser_log, attach_test_log, ignore_skip, h]
  · intro h
    simp [attach_page_source, attach_screenshot, attach_video,
      attach_browser_log, attach_test_log, ignore_skip, h]

/-- Witness for C1 at a concrete hook state: `SkipTest` attaches nothing,
another exception type runs the video-attachment body. -/
theorem C1_ignore_skip_gates_hooks_witness :
    attach_video
        { reportDir := "rep", pageHtml := Except.ok "h",
          screenshotExc := none, videoFilePath := "t.mp4", copyExc := none,
          browserLog := Except.ok "b", logBuffer := "l" }
        { typeName := "SkipTest" } = ([], none) ∧
    attach_video
        { reportDir := "rep", pageHtml := Except.ok "h",
          screenshotExc := none, videoFilePath := "t.mp4", copyExc := none,
          browserLog := Except.ok "b", logBuffer := "l" }
        { typeName := "AssertionError" }
      = ([Effect.stopCapture, Effect.copyFile "t.mp4" "rep/video.mp4"],
         none) := by
  refine ⟨?_, ?_⟩
  · exact (C1_ignore_skip_gates_hooks _ _).1 rfl |>.2.2.1
  · have h := (C1_ignore_skip_gates_hooks
      { reportDir := "rep", pageHtml := Except.ok "h",
        screenshotExc := none, videoFilePath := "t.mp4", copyExc := none,
        browserLog := Except.ok "b", logBuffer := "l" }
      { typeName := "AssertionError" }).2 (by decide) |>.2.2.1
    simpa [log_exception, attach_video_body] using h

/-- C2: an artifact-attachment operation that raises inside `log_exception`
has its exception (any `Exception` instance) caught and recorded as an
attached detail, and no exception leaves the block; in particular when the
video copy raises, `_attach_video` completes with the detail attached and
propagates nothing, so the test's original failure is not masked. -/
theorem C2_log_exception_catches (e : PyExc)
    (hexc : e.isExceptionSubclass = true) :
    (∀ (label : String) (effs : List Effect),
      log_exception label (effs, some e)
        = (effs ++ [Effect.addDetail label (format_exc e)], none)) ∧
    (∀ (s : HookState) (exc : ExcInfo), s.copyExc = some e →
      exc.typeName ≠ "SkipTest" →
      attach_video s exc
        = ([Effect.stopCapture,
            Effect.addDetail "Attach video" (format_exc e)], none)) := by
  constructor
  · intro label effs
    simp [log_exception, hexc]
  · intro s exc hcopy hskip
    simp [attach_video, ignore_skip, hskip, attach_video_body, hcopy,
      log_exception, hexc]

/-- Witness for C2: a concrete `IOError` raised by the video copy is
recorded as a detail and does not propagate. -/
theorem C2_log_exception_catches_witness :
    log_exception "Attach video" ([Effect.stopCapture],
        some { name := "IOError", isExceptionSubclass := true })
      = ([Effect.stopCapture,
          Effect.addDetail "Attach video"
            (format_exc { name := "IOError", isExceptionSubclass := true })],
         none) ∧
    attach_video
        { reportDir := "rep", pageHtml := Except.ok "h",
          screenshotExc := none, videoFilePath := "t.mp4",
          copyExc := some { name := "IOError", isExceptionSubclass := true },
          browserLog := Except.ok "b", logBuffer := "l" }
        { typeName := "AssertionError" }
      = ([Effect.stopCapture,
          Effect.addDetail "Attach video"
            (format_exc { name := "IOError", isExceptionSubclass := true })],
         none) := by
  refine ⟨(C2_log_exception_catches _ rfl).1 _ _, ?_⟩
  exact (C2_log_exception_catches _ rfl).2 _ _ rfl (by decide)

/-- The failure raised by the polling helper when the time budget runs out
(selenium's `TimeoutException`). -/
inductive WaitFailure where
  | timeout
  deriving DecidableEq, Repr

/-- Modelled from the spec: the polling helper `_wait_until` of the page
base class (the regions/pages base classes are not under src/; only their
call sites `get_credentials_from_file`, `is_volume_deleted` and
`wait_cell_status` are). Per the spec it repeatedly evaluates the supplied
condition function against the live DOM until it returns a truthy result or
a fixed timeout elapses, then fails with a timeout condition; bounded retry
with a fixed polling interval, no backoff, no other cancellation. The DOM
as seen at successive poll ticks is abstracted into `cond : Nat → Bool`;
`fuel` is the number of polls the timeout budget allows, `t` the current
tick. -/
def wait_until (cond : Nat → Bool) : Nat → Nat → Except WaitFailure Nat
  | 0, _ => Except.error WaitFailure.timeout
  | fuel + 1, t => if cond t then Except.ok t else wait_until cond fuel (t + 1)

/-- `wait_until` is exactly first-match search over its bounded window of
poll ticks. -/
theorem wait_until_eq_find (cond : Nat → Bool) :
    ∀ (fuel t : Nat),
      wait_until cond fuel t =
        match (List.range' t fuel).find? cond with
        | some r => Except.ok r
        | none => Except.error WaitFailure.timeout
  | 0, t => by simp [wait_until]
  | fuel + 1, t => by
    rw [List.range'_succ]
    by_cases h : cond t
    · simp [wait_until, h, List.find?_cons_of_pos]
    · simp only [wait_until, h, if_false, List.find?_cons_of_neg _ h]
      exact wait_until_eq_find cond fuel (t + 1)

/-- C3: the polling helper evaluates the supplied condition at successive
poll ticks within its fixed budget and nothing else: it succeeds exactly at
the first tick where the condition is truthy, and when no tick within the
budget satisfies the condition it fails with the timeout condition — so
the caller proceeds iff the condition became truthy, and there is no retry
beyond this bounded polling and no other cancellation. -/
theorem C3_wait_until_bounded_polling (cond : Nat → Bool) (fuel : Nat) :
    wait_until cond fuel 0 =
      match (List.range fuel).find? cond with
      | some t => Except.ok t
      | none => Except.error WaitFailure.timeout := by
  rw [wait_until_eq_find, List.range_eq_range']

/-- One rendered table row: the displayed text of each cell, keyed by the
column name the page classes use (`'name'`, `'status'`, ...). -/
structure TableRow where
  cells : List (String × String)
  deriving DecidableEq, Repr

/-- The displayed text of row `r` in column `col`, when the row has such a
cell. -/
def TableRow.cell (r : TableRow) (col : String) : Option String :=
  (r.cells.find? (fun c => c.1 == col)).map Prod.snd

/-- Modelled from the spec: `TableRegion.get_row` (regions/tables.py is not
under src/; only its callers are). Per the spec a table region supports
"lookup of a row by a column's displayed value" — "a by-value lookup with
the implicit assumption of uniqueness within the currently rendered page,
which the code does not verify": the scan yields a matching row of the
currently rendered table, or nothing. -/
def get_row (rows : List TableRow) (col value : String) : Option TableRow :=
  rows.find? (fun r => r.cell col == some value)

/-- `UsersPage.USERS_TABLE_NAME_COLUMN`. -/
def USERS_TABLE_NAME_COLUMN : String := "name"

/-- `VolumesPage.VOLUMES_TABLE_NAME_COLUMN`. -/
def VOLUMES_TABLE_NAME_COLUMN : String := "name"

/-- `UsersPage._get_row_with_user_name` over the rendered users table. -/
def get_row_with_user_name (table : List TableRow) (name : String) :
    Option TableRow :=
  get_row table USERS_TABLE_NAME_COLUMN name

/-- `UsersPage.is_user_present`: `bool(self._get_row_with_user_name(name))`. -/
def is_user_present (table : List TableRow) (name : String) : Bool :=
  (get_row_with_user_name table name).isSome

/-- `VolumesPage._get_row_with_volume_name` over the rendered volumes
table. -/
def get_row_with_volume_name (table : List TableRow) (name : String) :
    Option TableRow :=
  get_row table VOLUMES_TABLE_NAME_COLUMN name

/-- `VolumesPage.is_volume_present`:
`bool(self._get_row_with_volume_name(name))`. -/
def is_volume_present (table : List TableRow) (name : String) : Bool :=
  (get_row_with_volume_name table name).isSome

/-- C4: row lookup is a by-value search on the single displayed `name`
column: `is_user_present` / `is_volume_present` hold iff the rendered table
has at least one row whose `name` cell displays the value; any row the
lookup returns is a row of the table matching the value, and nothing
verifies uniqueness — with two duplicate matching rows the lookup still
succeeds, settling on one unspecified matching row (the scan's first). -/
theorem C4_row_lookup_by_value (rows : List TableRow) (name : String) :
    (is_user_present rows name = true ↔
      ∃ r ∈ rows, r.cell "name" = some name) ∧
    (is_volume_present rows name = true ↔
      ∃ r ∈ rows, r.cell "name" = some name) ∧
    (∀ col v r, get_row rows col v = some r →
      r ∈ rows ∧ r.cell col = some v) ∧
    (∀ r₁ r₂ rest, r₁.cell "name" = some name → r₂.cell "name" = some name →
      r₁ ≠ r₂ →
      get_row (r₁ :: r₂ :: rest) "name" name = some r₁) := by
  refine ⟨?_, ?_, ?_, ?_⟩
  · simp [is_user_present, get_row_with_user_name, get_row,
      USERS_TABLE_NAME_COLUMN, List.find?_isSome]
  · simp [is_volume_present, get_row_with_volume_name, get_row,
      VOLUMES_TABLE_NAME_COLUMN, List.find?_isSome]
  · intro col v r h
    exact ⟨List.mem_of_find?_eq_some h,
      by simpa using List.find?_some h⟩
  · intro r₁ r₂ rest h₁ h₂ _
    exact List.find?_cons_of_pos _ (by simp [h₁])

/-- Witness for C4 at a concrete table holding two distinct rows that both
display the same name: presence holds and the lookup returns the first
matching row. -/
theorem C4_row_lookup_by_value_witness :
    is_user_present
      [{ cells := [("name", "alice"), ("enabled", "Yes")] },
       { cells := [("name", "alice"), ("enabled", "No")] }] "alice" = true ∧
    get_row
      [{ cells := [("name", "alice"), ("enabled", "Yes")] },
       { cells := [("name", "alice"), ("enabled", "No")] }] "name" "alice"
      = some { cells := [("name", "alice"), ("enabled", "Yes")] } := by
  constructor
  · exact (C4_row_lookup_by_value _ "alice").1.mpr
      ⟨{ cells := [("name", "alice"), ("enabled", "Yes")] },
        by simp, by decide⟩
  · exact (C4_row_lookup_by_value
      [{ cells := [("name", "alice"), ("enabled", "Yes")] },
       { cells := [("name", "alice"), ("enabled", "No")] }] "alice").2.2.2
      { cells := [("name", "alice"), ("enabled", "Yes")] }
      { cells := [("name", "alice"), ("enabled", "No")] }
      [] (by decide) (by decide) (by decide)

/-- The two construction arguments every page/region object carries:
handles to the one webdriver session and the loaded configuration
(`self.driver`, `self.conf`). -/
structure PageHandles where
  driver : Nat
  conf : Nat
  deriving DecidableEq, Repr

/-- A constructed region object: its CPython object identity (the
allocation counter value at construction), its class, and the construction
arguments stored on it. -/
structure RegionObj where
  objId : Nat
  cls : String
  driver : Nat
  conf : Nat
  deriving DecidableEq, Repr

/-- `UsersPage.users_table`: the property body is
`return UsersTable(self.driver, self.conf)` — a constructor call on every
access, consuming a fresh allocation. -/
def users_table (p : PageHandles) (alloc : Nat) : RegionObj × Nat :=
  ({ objId := alloc, cls := "UsersTable",
     driver := p.driver, conf := p.conf }, alloc + 1)

/-- `VolumesPage.volumes_table`:
`return VolumesTable(self.driver, self.conf)`. -/
def volumes_table (p : PageHandles) (alloc : Nat) : RegionObj × Nat :=
  ({ objId := alloc, cls := "VolumesTable",
     driver := p.driver, conf := p.conf }, alloc + 1)

/-- `ApiaccessPage.apiaccess_table`:
`return ApiAccessTable(self.driver, self.conf)`. -/
def apiaccess_table (p : PageHandles) (alloc : Nat) : RegionObj × Nat :=
  ({ objId := alloc, cls := "ApiAccessTable",
     driver := p.driver, conf := p.conf }, alloc + 1)

/-- C5: each table property access constructs a fresh region object from
the page's driver and configuration, caching nothing: two successive
accesses yield objects with distinct identities and equal construction
arguments (same class, same driver, same configuration). -/
theorem C5_table_properties_construct_fresh (p : PageHandles) (a : Nat) :
    ((users_table p a).1.objId ≠ (users_table p (users_table p a).2).1.objId ∧
      (users_table p a).1.driver = p.driver ∧
      (users_table p a).1.conf = p.conf ∧
      (users_table p a).1.cls = (users_table p (users_table p a).2).1.cls ∧
      (users_table p a).1.driver
        = (users_table p (users_table p a).2).1.driver ∧
      (users_table p a).1.conf
        = (users_table p (users_table p a).2).1.conf) ∧
    ((volumes_table p a).1.objId
        ≠ (volumes_table p (volumes_table p a).2).1.objId ∧
      (volumes_table p a).1.driver = p.driver ∧
      (volumes_table p a).1.conf = p.conf ∧
      (volumes_table p a).1.cls
        = (volumes_table p (volumes_table p a).2).1.cls ∧
      (volumes_table p a).1.driver
        = (volumes_table p (volumes_table p a).2).1.driver ∧
      (volumes_table p a).1.conf
        = (volumes_table p (volumes_table p a).2).1.conf) ∧
    ((apiaccess_table p a).1.objId
        ≠ (apiaccess_table p (apiaccess_table p a).2).1.objId ∧
      (apiaccess_table p a).1.driver = p.driver ∧
      (apiaccess_table p a).1.conf = p.conf ∧
      (apiaccess_table p a).1.cls
        = (apiaccess_table p (apiaccess_table p a).2).1.cls ∧
      (apiaccess_table p a).1.driver
        = (apiaccess_table p (apiaccess_table p a).2).1.driver ∧
      (apiaccess_table p a).1.conf
        = (apiaccess_table p (apiaccess_table p a).2).1.conf) := by
  refine ⟨⟨?_, rfl, rfl, rfl, rfl, rfl⟩, ⟨?_, rfl, rfl, rfl, rfl, rfl⟩,
    ⟨?_, rfl, rfl, rfl, rfl, rfl⟩⟩ <;>
    simp [users_table, volumes_table, apiaccess_table]

/-- The steps `BaseTestCase.tearDown` and `TestCase.tearDown` perform. -/
inductive TDStep where
  | goHomePage
  | logOut
  | stopCapture
  | quitDriver
  | stopVDisplay
  | superTearDown
  deriving DecidableEq, Repr

/-- The state `tearDown` observes: whether a session is logged in, the
exception (if any) the log-out sequence raises, whether `INTEGRATION_TESTS`
is (truthily) set, and whether a virtual display was created. -/
structure TearDownEnv where
  isLoggedIn : Bool
  logOutExc : Option PyExc
  integrationTests : Bool
  hasVDisplay : Bool

/-- The `try:` body of `TestCase.tearDown`: when logged in, go to the home
page and log out; the log-out sequence may raise. -/
def tearDown_try_body (e : TearDownEnv) : List TDStep × Option PyExc :=
  if e.isLoggedIn then
    match e.logOutExc with
    | some exc => ([TDStep.goHomePage], some exc)
    | none => ([TDStep.goHomePage, TDStep.logOut], none)
  else ([], none)

/-- `BaseTestCase.tearDown`: stop the screen capture, quit the driver when
`INTEGRATION_TESTS` is set, stop the virtual display when one exists, then
the superclass teardown. -/
def base_tearDown (e : TearDownEnv) : List TDStep :=
  [TDStep.stopCapture]
    ++ (if e.integrationTests then [TDStep.quitDriver] else [])
    ++ (if e.hasVDisplay then [TDStep.stopVDisplay] else [])
    ++ [TDStep.superTearDown]

/-- `TestCase.tearDown`: the log-out body under `try:`, with
`BaseTestCase.tearDown` in the `finally:` block, so the base teardown runs
whether or not the body raised, and the body's exception (if any) resumes
propagating afterwards. -/
def testcase_tearDown (e : TearDownEnv) : List TDStep × Option PyExc :=
  ((tearDown_try_body e).1 ++ base_tearDown e, (tearDown_try_body e).2)

/-- C6: after every test with `INTEGRATION_TESTS` set, teardown logs the
user out (when a session is logged in and the log-out does not itself
raise, the trace is exactly home-page + log-out followed by the base
teardown), and the base teardown stops the screen capture and quits the
driver; the driver quit happens even when the log-out step raises, and that
exception still propagates afterwards. -/
theorem C6_teardown_quits_driver (e : TearDownEnv)
    (h : e.integrationTests = true) :
    TDStep.stopCapture ∈ (testcase_tearDown e).1 ∧
    TDStep.quitDriver ∈ (testcase_tearDown e).1 ∧
    (e.isLoggedIn = true → e.logOutExc = none →
      (testcase_tearDown e).1
        = [TDStep.goHomePage, TDStep.logOut] ++ base_tearDown e) ∧
    (∀ exc, e.logOutExc = some exc →
      TDStep.quitDriver ∈ (testcase_tearDown e).1 ∧
      (e.isLoggedIn = true → (testcase_tearDown e).2 = some exc)) := by
  refine ⟨?_, ?_, ?_, ?_⟩
  · simp [testcase_tearDown, base_tearDown]
  · simp [testcase_tearDown, base_tearDown, h]
  · intro hin hexc
    simp [testcase_tearDown, tearDown_try_body, hin, hexc]
  · intro exc hexc
    refine ⟨by simp [testcase_tearDown, base_tearDown, h], ?_⟩
    intro hin
    simp [testcase_tearDown, tearDown_try_body, hin, hexc]

/-- Witness for C6: a logged-in session whose log-out raises a concrete
`WebDriverException`; the driver is still quit and the exception
propagates. -/
theorem C6_teardown_quits_driver_witness :
    TDStep.quitDriver ∈ (testcase_tearDown
      { isLoggedIn := true,
        logOutExc := some { name := "WebDriverException",
                            isExceptionSubclass := true },
        integrationTests := true, hasVDisplay := false }).1 ∧
    (testcase_tearDown
      { isLoggedIn := true,
        logOutExc := some { name := "WebDriverException",
                            isExceptionSubclass := true },
        integrationTests := true, hasVDisplay := false }).2
      = some { name := "WebDriverException", isExceptionSubclass := true } := by
  have h := C6_teardown_quits_driver
    { isLoggedIn := true,
      logOutExc := some { name := "WebDriverException",
                          isExceptionSubclass := true },
      integrationTests := true, hasVDisplay := false } rfl
  exact ⟨h.2.1, (h.2.2.2 _ rfl).2 rfl⟩

/-- Python truthiness of `os.environ.get(var, False)`: falsy when the
variable is unset (the `False` default) or set to the empty string. -/
def envTruthy : Option String → Bool
  | none => false
  | some s => !s.isEmpty

/-- The environment-dependent inputs of `BaseTestCase.setUp`. -/
structure SetUpEnv where
  /-- `os.environ.get('INTEGRATION_TESTS', False)` -/
  integration_tests : Option String
  /-- `os.environ.get('SELENIUM_HEADLESS', False)` -/
  selenium_headless : Option String
  /-- `self.CONFIG.selenium.maximize_browser` -/
  maximize_browser : Bool

/-- The steps `BaseTestCase.setUp` performs, in program order. -/
inductive SetUpStep where
  | configureLog
  | startVDisplay
  | startDriver
  | maximizeWindow
  | setWindowSize
  | setImplicitWait
  | setPageLoadTimeout
  | startCapture
  | addHook (hook : String)
  | superSetUp
  deriving DecidableEq, Repr

/-- `BaseTestCase.setUp`: configure logging; when `INTEGRATION_TESTS` is
unset (or empty) raise the skip exception (second component `true`) before
anything else; otherwise start the virtual display exactly when
`SELENIUM_HEADLESS` is (truthily) set, start the webdriver, apply window
and timeout configuration, start the screen capture, register the five
on-exception attachment hooks, and call the superclass `setUp`. -/
def base_setUp (env : SetUpEnv) : List SetUpStep × Bool :=
  if envTruthy env.integration_tests = false then
    ([SetUpStep.configureLog], true)
  else
    ([SetUpStep.configureLog]
      ++ (if envTruthy env.selenium_headless then [SetUpStep.startVDisplay]
          else [])
      ++ [SetUpStep.startDriver]
      ++ (if env.maximize_browser then
            [SetUpStep.maximizeWindow]
              ++ (if envTruthy env.selenium_headless then
                    [SetUpStep.setWindowSize]
                  else [])
          else [])
      ++ [SetUpStep.setImplicitWait, SetUpStep.setPageLoadTimeout,
          SetUpStep.startCapture,
          SetUpStep.addHook "_attach_page_source",
          SetUpStep.addHook "_attach_screenshot",
          SetUpStep.addHook "_attach_video",
          SetUpStep.addHook "_attach_browser_log",
          SetUpStep.addHook "_attach_test_log",
          SetUpStep.superSetUp], false)

/-- C7: fixture setup is gated by environment variables: when
`INTEGRATION_TESTS` is unset or empty, `setUp` raises the skip exception
before starting any virtual display or browser session (or capture); when
it is set, no skip is raised and the virtual display is started iff
`SELENIUM_HEADLESS` is (non-emptily) set. -/
theorem C7_setUp_env_gating (env : SetUpEnv) :
    (envTruthy env.integration_tests = false →
      (base_setUp env).2 = true ∧
      SetUpStep.startVDisplay ∉ (base_setUp env).1 ∧
      SetUpStep.startDriver ∉ (base_setUp env).1 ∧
      SetUpStep.startCapture ∉ (base_setUp env).1) ∧
    (envTruthy env.integration_tests = true →
      (base_setUp env).2 = false ∧
      (SetUpStep.startVDisplay ∈ (base_setUp env).1 ↔
        envTruthy env.selenium_headless = true)) := by
  constructor
  · intro h
    simp [base_setUp, h]
  · intro h
    refine ⟨by simp [base_setUp, h], ?_⟩
    by_cases hh : envTruthy env.selenium_headless <;>
      cases hm : env.maximize_browser <;>
      simp [base_setUp, h, hh, hm]

/-- Witness for C7: with `INTEGRATION_TESTS` unset the skip is raised and
neither display nor driver starts; with it set and `SELENIUM_HEADLESS=1`
the display starts and no skip is raised. -/
theorem C7_setUp_env_gating_witness :
    (base_setUp { integration_tests := none, selenium_headless := some "1",
                  maximize_browser := true }).2 = true ∧
    SetUpStep.startDriver ∉ (base_setUp
      { integration_tests := none, selenium_headless := some "1",
        maximize_browser := true }).1 ∧
    (base_setUp { integration_tests := some "1",
                  selenium_headless := some "1",
                  maximize_browser := true }).2 = false ∧
    SetUpStep.startVDisplay ∈ (base_setUp
      { integration_tests := some "1", selenium_headless := some "1",
        maximize_browser := true }).1 := by
  have h1 := (C7_setUp_env_gating
    { integration_tests := none, selenium_headless := some "1",
      maximize_browser := true }).1 rfl
  have h2 := (C7_setUp_env_gating
    { integration_tests := some "1", selenium_headless := some "1",
      maximize_browser := true }).2 rfl
  exact ⟨h1.1, h1.2.2.1, h2.1, h2.2.mpr rfl⟩

/-- `volumespage.VOLUME_SOURCE_TYPE`. -/
def VOLUME_SOURCE_TYPE : String := "Volume"

/-- `volumespage.IMAGE_SOURCE_TYPE`. -/
def IMAGE_SOURCE_TYPE : String := "Image"

/-- The two source-selection form fields `_get_source_name` can return. -/
inductive SrcField where
  | image_source
  | volume_id
  deriving DecidableEq, Repr

/-- A Python value the local variable `volume_source_type` of
`create_volume` can hold: the string it is called with, or the
`(form field, source name)` pair `_get_source_name` returns. -/
inductive PyVal where
  | vstr (s : String)
  | vpair (f : SrcField) (v : Option String)
  deriving DecidableEq, Repr

/-- Python `==` on such values: values of different types compare
unequal. -/
def pyValEq : PyVal → PyVal → Bool
  | PyVal.vstr a, PyVal.vstr b => a == b
  | PyVal.vpair f a, PyVal.vpair g b => f == g && a == b
  | _, _ => false

/-- `VolumesPage._get_source_name`: for the `Image` source type the image
source field with the configured image name, for `Volume` the volume-id
field with the supplied source; any other source type falls through and
returns `None`. -/
def get_source_name (volume_source_type : String) (image_name : String)
    (volume_source : Option String) : Option (SrcField × Option String) :=
  if volume_source_type == IMAGE_SOURCE_TYPE then
    some (SrcField.image_source, some image_name)
  else if volume_source_type == VOLUME_SOURCE_TYPE then
    some (SrcField.volume_id, volume_source)
  else none

/-- The relevant configuration read by `create_volume`:
`conf.launch_instances.image_name`, `conf.volume.volume_type`,
`conf.launch_instances.available_zone`, `conf.volume.volume_size`. -/
structure VolConf where
  image_name : String
  volume_type : String
  available_zone : String
  volume_size : Nat

/-- UI interactions of `VolumesPage.create_volume`, in program order. -/
inductive VolEffect where
  | clickCreate
  | setName (s : String)
  | setDescription (s : String)
  | setSourceTypeField (s : String)
  | setSourceField (f : SrcField) (v : Option String)
  | setSize (n : Nat)
  | setType (s : String)
  | setAvailabilityZone (s : String)
  | submit
  deriving DecidableEq, Repr

/-- `VolumesPage.create_volume`: open the create form, fill name and
optional description, set the source-type field, then REASSIGN the local
`volume_source_type` to the pair `_get_source_name` returns (subscripting
`None` raises a `TypeError` for unknown source types), set the source field
and the size, and — guarded by `volume_source_type != "Volume"`, now a
comparison of a pair against a string — set the type and availability-zone
fields; finally submit. -/
def create_volume (conf : VolConf) (volume_name : String)
    (description : Option String) (volume_source_type : String)
    (volume_size : Option Nat) (volume_source : Option String) :
    List VolEffect × Option PyExc :=
  let t₀ := [VolEffect.clickCreate, VolEffect.setName volume_name]
  let t₁ := t₀ ++ (match description with
    | some d => [VolEffect.setDescription d]
    | none => [])
  let t₂ := t₁ ++ [VolEffect.setSourceTypeField volume_source_type]
  match get_source_name volume_source_type conf.image_name volume_source with
  | none =>
      (t₂, some { name := "TypeError", isExceptionSubclass := true })
  | some pair =>
      let t₃ := t₂ ++ [VolEffect.setSourceField pair.1 pair.2]
      let size := match volume_size with
        | some n => n
        | none => conf.volume_size
      let t₄ := t₃ ++ [VolEffect.setSize size]
      let t₅ := t₄ ++
        (if !(pyValEq (PyVal.vpair pair.1 pair.2) (PyVal.vstr "Volume")) then
          [VolEffect.setType conf.volume_type,
           VolEffect.setAvailabilityZone conf.available_zone]
        else [])
      (t₅ ++ [VolEffect.submit], none)

/-- A pair value never compares `==` to a string value, as Python `!=`
between a tuple and a `str` is always `True`. -/
theorem pyValEq_pair_str (f : SrcField) (v : Option String) (s : String) :
    pyValEq (PyVal.vpair f v) (PyVal.vstr s) = false := rfl

/-- C8: because `create_volume` reassigns its local `volume_source_type` to
the `(field, name)` pair before the `!= "Volume"` comparison, the guard
compares a pair against a string and the guarded branch is taken on every
call that reaches it: every run of `create_volume` that completes without
raising sets both the `type` and `availability_zone` form fields — for
every source type, including `'Volume'` itself. -/
theorem C8_create_volume_branch_always_taken (conf : VolConf)
    (volume_name : String) (description : Option String)
    (volume_source_type : String) (volume_size : Option Nat)
    (volume_source : Option String) :
    (∀ trace, create_volume conf volume_name description volume_source_type
        volume_size volume_source = (trace, none) →
      VolEffect.setType conf.volume_type ∈ trace ∧
      VolEffect.setAvailabilityZone conf.available_zone ∈ trace) ∧
    ((create_volume conf volume_name description VOLUME_SOURCE_TYPE
        volume_size volume_source).2 = none ∧
      VolEffect.setType conf.volume_type
        ∈ (create_volume conf volume_name description VOLUME_SOURCE_TYPE
            volume_size volume_source).1 ∧
      VolEffect.setAvailabilityZone conf.available_zone
        ∈ (create_volume conf volume_name description VOLUME_SOURCE_TYPE
            volume_size volume_source).1) := by
  constructor
  · intro trace h
    rcases hsrc : get_source_name volume_source_type conf.image_name
        volume_source with _ | pair
    · simp [create_volume, hsrc] at h
    · rw [create_volume.eq_def] at h
      simp only [hsrc, pyValEq_pair_str, Bool.not_false, if_pos,
        Prod.mk.injEq] at h
      rw [← h.1]
      constructor <;> simp
  · rw [create_volume.eq_def]
    simp [get_source_name, VOLUME_SOURCE_TYPE, IMAGE_SOURCE_TYPE,
      pyValEq_pair_str]

/-- Witness for C8: a concrete call with source type `'Volume'` completes,
and its trace sets the type and availability-zone fields. -/
theorem C8_create_volume_branch_always_taken_witness :
    VolEffect.setType "lvm" ∈ (create_volume
      { image_name := "cirros", volume_type := "lvm",
        available_zone := "nova", volume_size := 1 }
      "vol1" none VOLUME_SOURCE_TYPE none (some "srcvol")).1 ∧
    (create_volume
      { image_name := "cirros", volume_type := "lvm",
        available_zone := "nova", volume_size := 1 }
      "vol1" none VOLUME_SOURCE_TYPE none (some "srcvol")).2 = none := by
  have h := (C8_create_volume_branch_always_taken
    { image_name := "cirros", volume_type := "lvm",
      available_zone := "nova", volume_size := 1 }
    "vol1" none VOLUME_SOURCE_TYPE none (some "srcvol")).2
  exact ⟨h.2.1, h.1⟩

/-- Python exception classes the apiaccess page code can raise. -/
inductive PyErr where
  | typeError
  | unboundLocalError
  | attributeError
  deriving DecidableEq, Repr

/-- Whether the character list in the second argument begins with the
pattern given first. -/
def startsWithChars : List Char → List Char → Bool
  | [], _ => true
  | _ :: _, [] => false
  | p :: ps, c :: cs => p == c && startsWithChars ps cs

/-- The suffix following the first (leftmost) occurrence of `pat`, scanning
left to right as `re.search` does. -/
def afterFirst (pat : List Char) : List Char → Option (List Char)
  | [] => if pat.isEmpty then some [] else none
  | c :: rest =>
      if startsWithChars pat (c :: rest) then
        some ((c :: rest).drop pat.length)
      else afterFirst pat rest

/-- `re.search` for the pattern `export KEY="([^"]+)"` (the quoted-value
credential lines): locate the first occurrence of `export KEY="`, capture
the following non-quote characters, and require at least one captured
character followed by the closing quote. -/
def searchQuotedGroup (key content : String) : Option String :=
  match afterFirst ("export " ++ key ++ "=\"").data content.data with
  | none => none
  | some rest =>
    let cap := rest.takeWhile (fun c => c ≠ '"')
    if cap.isEmpty then none
    else match rest.drop cap.length with
      | '"' :: _ => some (String.mk cap)
      | _ => none

/-- `re.search` for the pattern `export KEY=(.+)` (the unquoted id lines):
locate the first occurrence of `export KEY=` and capture the rest of the
line, requiring at least one character (`.` does not match a newline). -/
def searchLineGroup (key content : String) : Option String :=
  match afterFirst ("export " ++ key ++ "=").data content.data with
  | none => none
  | some rest =>
    let cap := rest.takeWhile (fun c => c ≠ '\n')
    if cap.isEmpty then none else some (String.mk cap)

/-- The download actions `ApiAccessTable` exposes. -/
inductive RcAction where
  | downloadV2
  | downloadV3
  deriving DecidableEq, Repr

/-- `ApiaccessPage.download_openstack_rc_file`: click the v2 download for
version 2, the v3 download for version 3, and perform no action for any
other version. -/
def download_openstack_rc_file (version : Int) : List RcAction :=
  if version = 2 then [RcAction.downloadV2]
  else if version = 3 then [RcAction.downloadV3]
  else []

/-- `ApiaccessPage.get_credentials_from_file` applied to the content of the
downloaded rc file (the preceding `_wait_until` poll for the file's
appearance is the I/O modelled by `wait_until` above). The username search
runs first and raises `AttributeError` on a failed match (`None.group(1)`);
then, for version 2 the `OS_TENANT_*` patterns and for version 3 the
`OS_PROJECT_*` patterns are applied, while for any other version the local
variables `tenant_name_re` / `tenant_id_re` were never assigned and their
first use raises `UnboundLocalError`. On success the result is the dict
with exactly the keys `OS_USERNAME`, `OS_TENANT_NAME`, `OS_TENANT_ID`. -/
def get_credentials_from_file (version : Int) (content : String) :
    Except PyErr (List (String × String)) :=
  match searchQuotedGroup "OS_USERNAME" content with
  | none => Except.error PyErr.attributeError
  | some username =>
    if version = 2 then
      match searchQuotedGroup "OS_TENANT_NAME" content,
          searchLineGroup "OS_TENANT_ID" content with
      | some tn, some ti =>
          Except.ok [("OS_USERNAME", username), ("OS_TENANT_NAME", tn),
                     ("OS_TENANT_ID", ti)]
      | _, _ => Except.error PyErr.attributeError
    else if version = 3 then
      match searchQuotedGroup "OS_PROJECT_NAME" content,
          searchLineGroup "OS_PROJECT_ID" content with
      | some tn, some ti =>
          Except.ok [("OS_USERNAME", username), ("OS_TENANT_NAME", tn),
                     ("OS_TENANT_ID", ti)]
      | _, _ => Except.error PyErr.attributeError
    else Except.error PyErr.unboundLocalError

/-- C9: `get_credentials_from_file` is only defined for versions 2 and 3:
whenever it returns a dict at all, the version was 2 or 3 and the dict has
exactly the keys `OS_USERNAME`, `OS_TENANT_NAME`, `OS_TENANT_ID`, whose
values come from the version-specific patterns (`OS_TENANT_*` for 2,
`OS_PROJECT_*` for 3); for every other version the tenant patterns are
never assigned, so (once the username pattern has matched) the call fails
with an unbound-variable error; and `download_openstack_rc_file` performs
no action for versions other than 2 and 3. -/
theorem C9_credentials_version_gating (version : Int) (content : String) :
    (version ≠ 2 → version ≠ 3 →
      (∀ u, searchQuotedGroup "OS_USERNAME" content = some u →
        get_credentials_from_file version content
          = Except.error PyErr.unboundLocalError) ∧
      download_openstack_rc_file version = []) ∧
    (∀ d, get_credentials_from_file version content = Except.ok d →
      (version = 2 ∨ version = 3) ∧
      d.map Prod.fst = ["OS_USERNAME", "OS_TENANT_NAME", "OS_TENANT_ID"]) ∧
    (∀ d, get_credentials_from_file version content = Except.ok d →
      version = 2 →
      ∃ u tn ti, searchQuotedGroup "OS_USERNAME" content = some u ∧
        searchQuotedGroup "OS_TENANT_NAME" content = some tn ∧
        searchLineGroup "OS_TENANT_ID" content = some ti ∧
        d = [("OS_USERNAME", u), ("OS_TENANT_NAME", tn),
             ("OS_TENANT_ID", ti)]) ∧
    (∀ d, get_credentials_from_file version content = Except.ok d →
      version = 3 →
      ∃ u tn ti, searchQuotedGroup "OS_USERNAME" content = some u ∧
        searchQuotedGroup "OS_PROJECT_NAME" content = some tn ∧
        searchLineGroup "OS_PROJECT_ID" content = some ti ∧
        d = [("OS_USERNAME", u), ("OS_TENANT_NAME", tn),
             ("OS_TENANT_ID", ti)]) := by
  refine ⟨?_, ?_, ?_, ?_⟩
  · intro h2 h3
    refine ⟨?_, by simp [download_openstack_rc_file, h2, h3]⟩
    intro u hu
    simp [get_credentials_from_file, hu, h2, h3]
  · intro d hd
    rcases hu : searchQuotedGroup "OS_USERNAME" content with _ | u
    · simp [get_credentials_from_file, hu] at hd
    · by_cases h2 : version = 2
      · refine ⟨Or.inl h2, ?_⟩
        rcases htn : searchQuotedGroup "OS_TENANT_NAME" content with _ | tn <;>
          rcases hti : searchLineGroup "OS_TENANT_ID" content with _ | ti <;>
          simp only [get_credentials_from_file, hu, h2, if_pos, htn, hti] at hd <;>
          simp_all
        rw [← hd]
        simp
      · by_cases h3 : version = 3
        · refine ⟨Or.inr h3, ?_⟩
          rcases htn : searchQuotedGroup "OS_PROJECT_NAME" content with _ | tn <;>
            rcases hti : searchLineGroup "OS_PROJECT_ID" content with _ | ti <;>
            simp only [get_credentials_from_file, hu, h2, if_neg, h3,
              if_pos, htn, hti] at hd <;>
            simp_all
          rw [← hd]
          simp
        · simp [get_credentials_from_file, hu, h2, h3] at hd
  · intro d hd h2
    subst h2
    rcases hu : searchQuotedGroup "OS_USERNAME" content with _ | u <;>
      rcases htn : searchQuotedGroup "OS_TENANT_NAME" content with _ | tn <;>
      rcases hti : searchLineGroup "OS_TENANT_ID" content with _ | ti <;>
      simp only [get_credentials_from_file, hu, htn, hti, if_pos] at hd <;>
      simp_all
  · intro d hd h3
    subst h3
    rcases hu : searchQuotedGroup "OS_USERNAME" content with _ | u <;>
      rcases htn : searchQuotedGroup "OS_PROJECT_NAME" content with _ | tn <;>
      rcases hti : searchLineGroup "OS_PROJECT_ID" content with _ | ti <;>
      simp only [get_credentials_from_file, hu, htn, hti] at hd <;>
      simp_all

/-- Witness for C9 at a concrete rc-file content: version 2 extracts the
three keys, version 5 (username pattern matching) hits the unassigned
tenant patterns, and version 5 downloads nothing. -/
theorem C9_credentials_version_gating_witness :
    get_credentials_from_file 2
        "export OS_USERNAME=\"admin\"\nexport OS_TENANT_NAME=\"demo\"\nexport OS_TENANT_ID=abc\n"
      = Except.ok [("OS_USERNAME", "admin"), ("OS_TENANT_NAME", "demo"),
                   ("OS_TENANT_ID", "abc")] ∧
    (List.map Prod.fst [("OS_USERNAME", "admin"), ("OS_TENANT_NAME", "demo"),
        ("OS_TENANT_ID", "abc")])
      = ["OS_USERNAME", "OS_TENANT_NAME", "OS_TENANT_ID"] ∧
    get_credentials_from_file 5 "export OS_USERNAME=\"admin\"\n"
      = Except.error PyErr.unboundLocalError ∧
    download_openstack_rc_file 5 = [] := by
  have h5 := (C9_credentials_version_gating 5
    "export OS_USERNAME=\"admin\"\n").1 (by decide) (by decide)
  refine ⟨by rfl, ?_, h5.1 "admin" (by decide), h5.2⟩
  exact ((C9_credentials_version_gating 2
    "export OS_USERNAME=\"admin\"\nexport OS_TENANT_NAME=\"demo\"\nexport OS_TENANT_ID=abc\n").2.1
    [("OS_USERNAME", "admin"), ("OS_TENANT_NAME", "demo"),
     ("OS_TENANT_ID", "abc")] (by rfl)).2

/-- `helpers.once_only`: the decorator closes over a per-decoration list
`called_funcs`; the wrapper runs the wrapped function (returning its
result) only when the function's `__name__` is not yet in the list,
appending it then, and otherwise returns `None` without running anything.
`fname` is the function's `__name__`, `run` the wrapped body applied to the
call's arguments (of abstract type `α`), `called` the list's current
contents. -/
def once_only_call {β : Type} (fname : String) {α : Type} (run : α → β)
    (args : α) (called : List String) : Option β × List String :=
  if called.contains fname then (none, called)
  else (some (run args), called ++ [fname])

/-- A sequence of calls through one `once_only` wrapper, threading the
closed-over `called_funcs` list. -/
def once_only_run {β : Type} (fname : String) {α : Type} (run : α → β) :
    List α → List String → List (Option β) × List String
  | [], called => ([], called)
  | args :: restArgs, called =>
      let step := once_only_call fname run args called
      let rest := once_only_run fname run restArgs step.2
      (step.1 :: rest.1, rest.2)

/-- Once the name has been recorded, every further call returns `None` and
leaves the list unchanged, whatever its arguments. -/
theorem once_only_run_guarded {β : Type} (fname : String) {α : Type}
    (run : α → β) :
    ∀ (argsList : List α) (called : List String),
      called.contains fname = true →
      once_only_run fname run argsList called
        = (argsList.map (fun _ => none), called)
  | [], called, _ => by simp [once_only_run]
  | args :: restArgs, called, h => by
      have ih := once_only_run_guarded fname run restArgs called h
      have hm : fname ∈ called := by simpa using h
      simp [once_only_run, once_only_call, hm, ih]

/-- C10: a function wrapped by `once_only` executes at most once per
process: starting from the decorator's fresh (empty) `called_funcs` list,
the first call runs the body on its arguments and returns its result while
recording the function's `__name__`, and every subsequent call — with any
arguments — returns `None` without the body contributing any result; a
call finding the name already recorded is a no-op. -/
theorem C10_once_only_at_most_once {β : Type} (fname : String) {α : Type}
    (run : α → β) (args : α) (restArgs : List α) :
    once_only_run fname run (args :: restArgs) []
      = (some (run args) :: restArgs.map (fun _ => none), [fname]) ∧
    (∀ (called : List String) (a : α), called.contains fname = true →
      once_only_call fname run a called = (none, called)) := by
  constructor
  · have hstep : once_only_call fname run args [] = (some (run args), [fname]) := by
      simp [once_only_call]
    simp only [once_only_run, hstep]
    rw [once_only_run_guarded fname run restArgs [fname] (by simp)]
  · intro called a h
    have hm : fname ∈ called := by simpa using h
    simp [once_only_call, hm]

/-- Witness for C10 at the one decorated function of the repository,
`TestCase.create_demo_user`: of three successive calls only the first runs
the body, and a call with the name already recorded is a no-op. -/
theorem C10_once_only_at_most_once_witness :
    once_only_run "create_demo_user" (fun n : Nat => n + 100) (0 :: [1, 2]) []
      = ([some 100, none, none], ["create_demo_user"]) ∧
    once_only_call "create_demo_user" (fun n : Nat => n + 100) 7
        ["create_demo_user"]
      = (none, ["create_demo_user"]) := by
  have h := C10_once_only_at_most_once "create_demo_user"
    (fun n : Nat => n + 100) 0 [1, 2]
  exact ⟨h.1, h.2 ["create_demo_user"] 7 (by decide)⟩
